import Mathlib

/-!
Verification of the socketlabs-rs client library (SocketLabs Injection API).

The development shallowly embeds the library's data model and operations:

* `src/message.rs`  : `Email`, `CustomHeader`, `Attachment`, `MergeData`,
  `Data`, `Message` and the `Message` builder methods, together with their
  serde `Serialize` behaviour (`rename_all = "PascalCase"`,
  `skip_serializing_if = "Option::is_none"`).
* `src/request.rs`  : `Request`, `Request::new`, `Request::send`.
* `src/response.rs` : `AddressResult`, `MessageResult`, `Response`, the three
  error-code enumerations generated by the `create_error_codes!` macro, and
  their serde `Deserialize` behaviour (including the
  `deserialize_with`-installed fallback to `UnknownErrorCode`).
* `src/error.rs`    : `SocketLabsErrorKind` and the `From` conversions used by
  `Request::send` and response decoding.

JSON values are modelled as trees (the output of serde_json's syntactic
parser); object key lists are taken duplicate-free, as serde's derived
deserializers reject duplicate fields.  Rust `Cow<str>` is modelled as
`String`, `u16` as `Nat` (the numeric decoder enforces the `u16` range),
`Vec` as `List`, and `HashMap` iteration as the list of key-value pairs it
yields.  The HTTP transport used by `send` is an explicit collaborator
function, and `send` additionally returns the list of wire requests it issued
and its receiver (Rust `&self`: the method body never assigns to `self`).
-/

/-- JSON values, as produced by serde_json's parser.  Numbers are modelled as
integers, which covers every numeric field of this wire format (`ServerId`,
`Index`). -/
inductive Json where
  | null : Json
  | bool (b : Bool) : Json
  | num (n : Int) : Json
  | str (s : String) : Json
  | arr (elems : List Json) : Json
  | obj (fields : List (String × Json)) : Json

/-- First value bound to key `k`, as serde's field lookup. -/
def Json.lookup (fields : List (String × Json)) (k : String) : Option Json :=
  match fields with
  | [] => none
  | (k', v) :: rest => if k' = k then some v else Json.lookup rest k

/-- Keys of an object, in serialization order. -/
def Json.keys : Json → List String
  | .obj fields => fields.map Prod.fst
  | _ => []

/-- Value at key `k` of an object. -/
def Json.getKey (j : Json) (k : String) : Option Json :=
  match j with
  | .obj fields => Json.lookup fields k
  | _ => none

/-- `src/message.rs` `Email`: an address plus the optional name of its
owner. -/
structure Email where
  email_address : String
  friendly_name : Option String
deriving DecidableEq, Repr

/-- `Email::new` (src/message.rs lines 53-60): stores the two arguments
verbatim; the body performs no validation and cannot fail. -/
def Email.new (email_address : String) (friendly_name : Option String) : Email :=
  { email_address := email_address, friendly_name := friendly_name }

/-- Serde serialization of `Email`: PascalCase keys, `friendly_name` skipped
when `None`. -/
def serializeEmail (e : Email) : Json :=
  .obj ([("EmailAddress", .str e.email_address)] ++
    (match e.friendly_name with
     | some n => [("FriendlyName", .str n)]
     | none => []))

/-- `src/message.rs` `CustomHeader`. -/
structure CustomHeader where
  name : String
  value : String
deriving DecidableEq, Repr

/-- Serde serialization of `CustomHeader`. -/
def serializeCustomHeader (h : CustomHeader) : Json :=
  .obj [("Name", .str h.name), ("Value", .str h.value)]

/-- `src/message.rs` `Attachment`. -/
structure Attachment where
  name : String
  content : String
  content_id : String
  content_type : String
  custom_headers : Option (List CustomHeader)
deriving DecidableEq, Repr

/-- Helper for serde's `skip_serializing_if = "Option::is_none"`: a present
value contributes its key, an absent one contributes nothing. -/
def optField (k : String) : Option Json → List (String × Json)
  | some j => [(k, j)]
  | none => []

/-- Serde serialization of `Attachment`. -/
def serializeAttachment (a : Attachment) : Json :=
  .obj ([("Name", .str a.name),
         ("Content", .str a.content),
         ("ContentId", .str a.content_id),
         ("ContentType", .str a.content_type)] ++
    optField "CustomHeaders"
      (a.custom_headers.map (fun hs => .arr (hs.map serializeCustomHeader))))

/-- `src/message.rs` `Data`: one merge field/value pair. -/
structure Data where
  field : String
  value : String
deriving DecidableEq, Repr

/-- Serde serialization of `Data`. -/
def serializeData (d : Data) : Json :=
  .obj [("Field", .str d.field), ("Value", .str d.value)]

/-- `src/message.rs` `MergeData`. -/
structure MergeData where
  per_message : List Data
  global : List Data
deriving DecidableEq, Repr

/-- Serde serialization of `MergeData`. -/
def serializeMergeData (m : MergeData) : Json :=
  .obj [("PerMessage", .arr (m.per_message.map serializeData)),
        ("Global", .arr (m.global.map serializeData))]

/-- `src/message.rs` `Message`: one email to inject.  Field order matches the
Rust declaration, which fixes serde's serialization order. -/
structure Message where
  «to» : List Email
  «from» : Email
  subject : String
  text_body : String
  html_body : Option String
  api_template : Option String
  mailing_id : Option String
  message_id : Option String
  charset : Option String
  custom_headers : Option (List CustomHeader)
  cc : Option (List Email)
  bcc : Option (List Email)
  reply_to : Option Email
  attachment : Option (List Attachment)
  merge_data : Option MergeData
deriving DecidableEq, Repr

/-- Serde serialization of `Message`: PascalCase keys in declaration order;
every `Option` field carries `skip_serializing_if = "Option::is_none"`. -/
def serializeMessage (m : Message) : Json :=
  .obj ([("To", .arr (m.«to».map serializeEmail)),
         ("From", serializeEmail m.«from»),
         ("Subject", .str m.subject),
         ("TextBody", .str m.text_body)] ++
    optField "HtmlBody" (m.html_body.map .str) ++
    optField "ApiTemplate" (m.api_template.map .str) ++
    optField "MailingId" (m.mailing_id.map .str) ++
    optField "MessageId" (m.message_id.map .str) ++
    optField "Charset" (m.charset.map .str) ++
    optField "CustomHeaders"
      (m.custom_headers.map (fun hs => .arr (hs.map serializeCustomHeader))) ++
    optField "Cc" (m.cc.map (fun es => .arr (es.map serializeEmail))) ++
    optField "Bcc" (m.bcc.map (fun es => .arr (es.map serializeEmail))) ++
    optField "ReplyTo" (m.reply_to.map serializeEmail) ++
    optField "Attachment"
      (m.attachment.map (fun as2 => .arr (as2.map serializeAttachment))) ++
    optField "MergeData" (m.merge_data.map serializeMergeData))

/-- `Message::new` (src/message.rs): all fields empty but `from`. -/
def Message.new (address : String) (name : Option String) : Message :=
  { «to» := []
    «from» := (match name with
               | some n => Email.new address (some n)
               | none => Email.new address none)
    subject := ""
    text_body := ""
    html_body := none
    api_template := none
    mailing_id := none
    message_id := none
    charset := none
    custom_headers := none
    cc := none
    bcc := none
    reply_to := none
    attachment := none
    merge_data := none }

/-- `Message::add_headers` (src/message.rs lines 219-232).  The `HashMap`
argument is embedded as the list of key-value pairs its iteration yields.
The body first replaces a `None` `custom_headers` with `Some(Vec::new())`,
then pushes one `CustomHeader` per entry. -/
def Message.add_headers (m : Message) (headers : List (String × String)) : Message :=
  let m1 := if m.custom_headers.isNone then { m with custom_headers := some [] } else m
  match m1.custom_headers with
  | some hs =>
      { m1 with
          custom_headers := some (hs ++ headers.map (fun p => CustomHeader.mk p.1 p.2)) }
  | none => m1

/-- `Message::add_to`: appends one recipient built by `Email::new`. -/
def Message.add_to (m : Message) (address : String) (name : Option String) : Message :=
  { m with «to» := m.«to» ++ [Email.new address name] }

/-- `Message::set_from`. -/
def Message.set_from (m : Message) (address : String) (name : Option String) : Message :=
  { m with «from» := Email.new address name }

/-- `Message::set_subject`. -/
def Message.set_subject (m : Message) (subject : String) : Message :=
  { m with subject := subject }

/-- `Message::set_text`. -/
def Message.set_text (m : Message) (text : String) : Message :=
  { m with text_body := text }

/-- `Message::set_html`. -/
def Message.set_html (m : Message) (html : String) : Message :=
  { m with html_body := some html }

/-- `Message::set_api_template`. -/
def Message.set_api_template (m : Message) (t : String) : Message :=
  { m with api_template := some t }

/-- `Message::set_message_id`. -/
def Message.set_message_id (m : Message) (i : String) : Message :=
  { m with message_id := some i }

/-- `Message::set_charset`. -/
def Message.set_charset (m : Message) (c : String) : Message :=
  { m with charset := some c }

/-- `Message::add_cc`: pushes onto an existing list, or starts a one-element
list. -/
def Message.add_cc (m : Message) (address : String) (name : Option String) : Message :=
  let email := Email.new address name
  match m.cc with
  | some cc => { m with cc := some (cc ++ [email]) }
  | none => { m with cc := some [email] }

/-- `Message::add_bcc`. -/
def Message.add_bcc (m : Message) (address : String) (name : Option String) : Message :=
  let email := Email.new address name
  match m.bcc with
  | some bcc => { m with bcc := some (bcc ++ [email]) }
  | none => { m with bcc := some [email] }

/-- `Message::set_reply_to`. -/
def Message.set_reply_to (m : Message) (address : String) (name : Option String) : Message :=
  { m with reply_to := some (Email.new address name) }

/-- `src/error.rs` `SocketLabsErrorKind`. -/
inductive SocketLabsErrorKind where
  | MessageCountError : SocketLabsErrorKind
  | MessageParsingError (detail : String) : SocketLabsErrorKind
  | RequestError (detail : String) : SocketLabsErrorKind
  | TooManyRedirects : SocketLabsErrorKind
  | UnexpectedError : SocketLabsErrorKind
deriving DecidableEq, Repr

/-- `src/request.rs` `Request`: credentials plus the messages to send.
`server_id` is a `u16` in the source; its numeric range plays no role in any
operation here. -/
structure Request where
  server_id : Nat
  api_key : String
  messages : List Message
deriving DecidableEq, Repr

/-- `Request::new` (src/request.rs lines 24-38): rejects an empty message
list, otherwise stores the three arguments verbatim. -/
def Request.new (server_id : Nat) (api_key : String) (messages : List Message) :
    Except SocketLabsErrorKind Request :=
  if messages.length = 0 then
    .error .MessageCountError
  else
    .ok { server_id := server_id, api_key := api_key, messages := messages }

/-- Serde serialization of `Request` (PascalCase keys). -/
def serializeRequest (r : Request) : Json :=
  .obj [("ServerId", .num r.server_id),
        ("ApiKey", .str r.api_key),
        ("Messages", .arr (r.messages.map serializeMessage))]

/-- `src/request.rs` `API_URL`. -/
def API_URL : String := "https://inject.socketlabs.com/api/v1/email"

/-- One HTTP POST as handed to the transport collaborator: target URL, the
`Content-Type` header value, and the serialized JSON body. -/
structure HttpRequest where
  url : String
  content_type : String
  body : Json

/-- The transport's raw response (`reqwest::Response`): a status code and an
unparsed body. -/
structure HttpResponse where
  status : Nat
  body : String
deriving DecidableEq, Repr

/-- The failure introspection surface of `reqwest::Error` that
`From<ReqwestError> for SocketLabsError` (src/error.rs) consults: the
`is_http` / `is_serialization` / `is_redirect` predicates and, for HTTP
errors, whether a URL is attached. -/
inductive TransportError where
  | http (url_present : Bool) : TransportError
  | serialization : TransportError
  | redirect : TransportError
  | other : TransportError
deriving DecidableEq, Repr

/-- `From<ReqwestError> for SocketLabsError` (src/error.rs). -/
def socketLabsErrorOfReqwest : TransportError → SocketLabsErrorKind
  | .http false => .UnexpectedError
  | .http true => .RequestError "Problem making request to SocketLabs."
  | .serialization => .UnexpectedError
  | .redirect => .TooManyRedirects
  | .other => .UnexpectedError

/-- `Request::send` (src/request.rs lines 41-50), embedded with its effects
explicit.  The transport collaborator maps a wire request to a raw response
or a transport error.  The source method takes `&self` and its body never
assigns to `self`, so the state-passing embedding returns the receiver
unchanged; the middle component is the list of wire requests issued (the
body calls `.send()` exactly once, on a POST to `API_URL` carrying
`ContentType::json()` and the serde serialization of `self`); the last
component is the caller's result — on transport success, the transport's
response itself. -/
def Request.send (r : Request)
    (transport : HttpRequest → Except TransportError HttpResponse) :
    Request × List HttpRequest × Except SocketLabsErrorKind HttpResponse :=
  let wire : HttpRequest :=
    { url := API_URL, content_type := "application/json", body := serializeRequest r }
  (r, [wire],
    match transport wire with
    | .ok resp => .ok resp
    | .error e => .error (socketLabsErrorOfReqwest e))

/-- `PostMessageErrorCode` (src/response.rs, `create_error_codes!`): status of
the overall injection request, plus the reserved `UnknownErrorCode` fallback
(marked `skip_deserializing` in the source). -/
inductive PostMessageErrorCode where
  | Success | Warning | AccountDisabled | InternalError | InvalidAuthentication
  | InvalidData | NoMessages | EmptyMessage | OverQuota | TooManyErrors
  | TooManyMessages | TooManyRecipients | NoValidRecipients
  | UnknownErrorCode
deriving DecidableEq, Repr

/-- Serde's derived unit-variant match for `PostMessageErrorCode`: a string
equal to a variant name (the fallback variant is `skip_deserializing`, so its
own name does not match). -/
def PostMessageErrorCode.fromString : String → Option PostMessageErrorCode
  | "Success" => some .Success
  | "Warning" => some .Warning
  | "AccountDisabled" => some .AccountDisabled
  | "InternalError" => some .InternalError
  | "InvalidAuthentication" => some .InvalidAuthentication
  | "InvalidData" => some .InvalidData
  | "NoMessages" => some .NoMessages
  | "EmptyMessage" => some .EmptyMessage
  | "OverQuota" => some .OverQuota
  | "TooManyErrors" => some .TooManyErrors
  | "TooManyMessages" => some .TooManyMessages
  | "TooManyRecipients" => some .TooManyRecipients
  | "NoValidRecipients" => some .NoValidRecipients
  | _ => none

/-- `MessageResultErrorCode` (src/response.rs): status of one message. -/
inductive MessageResultErrorCode where
  | Warning | InvalidAttachment | MessageTooLarge | EmptySubject
  | EmptyToAddress | InvalidFromAddress | NoValidBodyParts | NoValidRecipients
  | InvalidMergeData | InvalidTemplateId | MessageBodyConflict
  | UnknownErrorCode
deriving DecidableEq, Repr

/-- Serde's derived unit-variant match for `MessageResultErrorCode`. -/
def MessageResultErrorCode.fromString : String → Option MessageResultErrorCode
  | "Warning" => some .Warning
  | "InvalidAttachment" => some .InvalidAttachment
  | "MessageTooLarge" => some .MessageTooLarge
  | "EmptySubject" => some .EmptySubject
  | "EmptyToAddress" => some .EmptyToAddress
  | "InvalidFromAddress" => some .InvalidFromAddress
  | "NoValidBodyParts" => some .NoValidBodyParts
  | "NoValidRecipients" => some .NoValidRecipients
  | "InvalidMergeData" => some .InvalidMergeData
  | "InvalidTemplateId" => some .InvalidTemplateId
  | "MessageBodyConflict" => some .MessageBodyConflict
  | _ => none

/-- `AddressResultErrorCode` (src/response.rs): status of one recipient. -/
inductive AddressResultErrorCode where
  | InvalidAddress
  | UnknownErrorCode
deriving DecidableEq, Repr

/-- Serde's derived unit-variant match for `AddressResultErrorCode`. -/
def AddressResultErrorCode.fromString : String → Option AddressResultErrorCode
  | "InvalidAddress" => some .InvalidAddress
  | _ => none

/-- `deserialize_postmessage` (src/response.rs, generated by
`create_error_codes!`): `Ok(deserialize(d).unwrap_or(UnknownErrorCode))` —
any value that is not a known variant string yields the fallback, and the
function never errors. -/
def deserialize_postmessage (j : Json) : PostMessageErrorCode :=
  (match j with
   | .str s => PostMessageErrorCode.fromString s
   | _ => none).getD .UnknownErrorCode

/-- `deserialize_messageresult` (src/response.rs). -/
def deserialize_messageresult (j : Json) : MessageResultErrorCode :=
  (match j with
   | .str s => MessageResultErrorCode.fromString s
   | _ => none).getD .UnknownErrorCode

/-- `deserialize_addressresult` (src/response.rs). -/
def deserialize_addressresult (j : Json) : AddressResultErrorCode :=
  (match j with
   | .str s => AddressResultErrorCode.fromString s
   | _ => none).getD .UnknownErrorCode

/-- `src/response.rs` `AddressResult`. -/
structure AddressResult where
  email_address : String
  accepted : Bool
  error_code : AddressResultErrorCode
deriving DecidableEq, Repr

/-- `src/response.rs` `MessageResult`. -/
structure MessageResult where
  index : Nat
  error_code : MessageResultErrorCode
  address_result : Option (List AddressResult)
deriving DecidableEq, Repr

/-- `src/response.rs` `Response`. -/
structure Response where
  error_code : PostMessageErrorCode
  transaction_receipt : Option String
  message_results : Option (List MessageResult)
deriving DecidableEq, Repr

/-- Serde decoding of a required `Cow<str>` field value. -/
def decodeString : Json → Except String String
  | .str s => .ok s
  | _ => .error "invalid type: expected a string"

/-- Serde decoding of a required `bool` field value. -/
def decodeBool : Json → Except String Bool
  | .bool b => .ok b
  | _ => .error "invalid type: expected a bool"

/-- Serde decoding of a required `u16` field value. -/
def decodeU16 : Json → Except String Nat
  | .num n => if 0 ≤ n ∧ n < 65536 then .ok n.toNat else .error "invalid value: out of range for u16"
  | _ => .error "invalid type: expected u16"

/-- Serde decoding of an `Option<Cow<str>>` field: a missing key and `null`
both give `None`; any other non-string value is a type error. -/
def decodeOptString : Option Json → Except String (Option String)
  | none => .ok none
  | some .null => .ok none
  | some (.str s) => .ok (some s)
  | some _ => .error "invalid type: expected a string or null"

/-- Serde decoding of the elements of a sequence, left to right. -/
def decodeElems (f : Json → Except String α) : List Json → Except String (List α)
  | [] => .ok []
  | j :: rest =>
      match f j with
      | .error e => .error e
      | .ok a =>
          match decodeElems f rest with
          | .error e => .error e
          | .ok as2 => .ok (a :: as2)

/-- Serde decoding of an `Option<Vec<T>>` field: a missing key and `null`
both give `None`; an array decodes elementwise; anything else is a type
error. -/
def decodeOptList (f : Json → Except String α) : Option Json → Except String (Option (List α))
  | none => .ok none
  | some .null => .ok none
  | some (.arr js) =>
      match decodeElems f js with
      | .error e => .error e
      | .ok as2 => .ok (some as2)
  | some _ => .error "invalid type: expected a sequence or null"

/-- Serde's derived `Deserialize` for `AddressResult`: `EmailAddress` and
`Accepted` are required typed fields; `ErrorCode` is required but its value
goes through `deserialize_addressresult`, which never errors. -/
def decodeAddressResult (j : Json) : Except String AddressResult :=
  match j with
  | .obj fields =>
      match Json.lookup fields "EmailAddress" with
      | none => .error "missing field EmailAddress"
      | some eaJ =>
          match decodeString eaJ with
          | .error e => .error e
          | .ok ea =>
              match Json.lookup fields "Accepted" with
              | none => .error "missing field Accepted"
              | some accJ =>
                  match decodeBool accJ with
                  | .error e => .error e
                  | .ok acc =>
                      match Json.lookup fields "ErrorCode" with
                      | none => .error "missing field ErrorCode"
                      | some ecJ =>
                          .ok { email_address := ea, accepted := acc,
                                error_code := deserialize_addressresult ecJ }
  | _ => .error "invalid type: expected a map"

/-- Serde's derived `Deserialize` for `MessageResult`: `Index` (u16) and
`ErrorCode` required, `AddressResult` optional. -/
def decodeMessageResult (j : Json) : Except String MessageResult :=
  match j with
  | .obj fields =>
      match Json.lookup fields "Index" with
      | none => .error "missing field Index"
      | some idxJ =>
          match decodeU16 idxJ with
          | .error e => .error e
          | .ok idx =>
              match Json.lookup fields "ErrorCode" with
              | none => .error "missing field ErrorCode"
              | some ecJ =>
                  match decodeOptList decodeAddressResult (Json.lookup fields "AddressResult") with
                  | .error e => .error e
                  | .ok ars =>
                      .ok { index := idx, error_code := deserialize_messageresult ecJ,
                            address_result := ars }
  | _ => .error "invalid type: expected a map"

/-- Serde's derived `Deserialize` for `Response`: `ErrorCode` required (value
through `deserialize_postmessage`), `TransactionReceipt` and `MessageResults`
optional. -/
def decodeResponse (j : Json) : Except String Response :=
  match j with
  | .obj fields =>
      match Json.lookup fields "ErrorCode" with
      | none => .error "missing field ErrorCode"
      | some ecJ =>
          match decodeOptString (Json.lookup fields "TransactionReceipt") with
          | .error e => .error e
          | .ok tr =>
              match decodeOptList decodeMessageResult (Json.lookup fields "MessageResults") with
              | .error e => .error e
              | .ok mrs =>
                  .ok { error_code := deserialize_postmessage ecJ,
                        transaction_receipt := tr, message_results := mrs }
  | _ => .error "invalid type: expected a map"

/-- `From<SerdeError> for SocketLabsError` (src/error.rs lines 87-91): a
decode diagnostic becomes `MessageParsingError` carrying its text. -/
def socketLabsErrorOfSerde (e : String) : SocketLabsErrorKind :=
  .MessageParsingError e

/-- Decoding a response body through the library's error type: the serde
result with its diagnostic wrapped by `From<SerdeError>`. -/
def decodeResponseBody (j : Json) : Except SocketLabsErrorKind Response :=
  match decodeResponse j with
  | .ok r => .ok r
  | .error e => .error (socketLabsErrorOfSerde e)

/-- Whether an `Except` computation succeeded. -/
def exceptOk : Except ε α → Bool
  | .ok _ => true
  | .error _ => false

/-- Specification-side shape predicate for an optional string field's looked-up
value: absent, `null`, or a string. -/
def optStringWellTyped : Option Json → Bool
  | none => true
  | some .null => true
  | some (.str _) => true
  | some _ => false

/-- Specification-side shape predicate for an optional list field's looked-up
value: absent, `null`, or an array of values satisfying `p`. -/
def optListWellTyped (p : Json → Bool) : Option Json → Bool
  | none => true
  | some .null => true
  | some (.arr js) => js.all p
  | some _ => false

/-- Specification-side shape predicate for an `AddressResult` object: the
required `EmailAddress` (string) and `Accepted` (bool) fields are present with
the right types and `ErrorCode` is present with any value at all. -/
def addressResultWellTyped (j : Json) : Bool :=
  match j with
  | .obj fields =>
      (match Json.lookup fields "EmailAddress" with
       | some (.str _) => true
       | _ => false) &&
      (match Json.lookup fields "Accepted" with
       | some (.bool _) => true
       | _ => false) &&
      (Json.lookup fields "ErrorCode").isSome
  | _ => false

/-- Specification-side shape predicate for a `MessageResult` object. -/
def messageResultWellTyped (j : Json) : Bool :=
  match j with
  | .obj fields =>
      (match Json.lookup fields "Index" with
       | some (.num n) => decide (0 ≤ n ∧ n < 65536)
       | _ => false) &&
      (Json.lookup fields "ErrorCode").isSome &&
      optListWellTyped addressResultWellTyped (Json.lookup fields "AddressResult")
  | _ => false

/-- Specification-side shape predicate for a `Response` object.  Note that no
error-code value is constrained beyond presence of its key. -/
def responseWellTyped (j : Json) : Bool :=
  match j with
  | .obj fields =>
      (Json.lookup fields "ErrorCode").isSome &&
      optStringWellTyped (Json.lookup fields "TransactionReceipt") &&
      optListWellTyped messageResultWellTyped (Json.lookup fields "MessageResults")
  | _ => false

theorem decodeElems_ok_iff {p : Json → Bool} {f : Json → Except String α}
    (hf : ∀ j, exceptOk (f j) = p j) :
    ∀ js : List Json, exceptOk (decodeElems f js) = js.all p := by
  intro js
  induction js with
  | nil => rfl
  | cons j rest ih =>
      have hj := hf j
      simp only [decodeElems, List.all_cons]
      cases hfj : f j with
      | error e =>
          rw [hfj] at hj
          simp only [exceptOk] at hj
          rw [← hj, Bool.false_and]
          rfl
      | ok a =>
          rw [hfj] at hj
          simp only [exceptOk] at hj
          rw [← hj, Bool.true_and]
          cases hrest : decodeElems f rest with
          | error e =>
              rw [hrest] at ih
              exact ih
          | ok as2 =>
              rw [hrest] at ih
              exact ih

theorem decodeOptList_ok_iff {p : Json → Bool} {f : Json → Except String α}
    (hf : ∀ j, exceptOk (f j) = p j) :
    ∀ oj : Option Json, exceptOk (decodeOptList f oj) = optListWellTyped p oj := by
  intro oj
  match oj with
  | none => rfl
  | some .null => rfl
  | some (.bool b) => rfl
  | some (.num n) => rfl
  | some (.str s) => rfl
  | some (.obj fields) => rfl
  | some (.arr js) =>
      have h := decodeElems_ok_iff hf js
      simp only [decodeOptList, optListWellTyped]
      cases hd : decodeElems f js with
      | error e =>
          rw [hd] at h
          exact h
      | ok as2 =>
          rw [hd] at h
          exact h

theorem exceptOk_true {x : Except ε α} (h : exceptOk x = true) : ∃ a, x = .ok a := by
  cases x with
  | ok a => exact ⟨a, rfl⟩
  | error e => simp [exceptOk] at h

theorem decodeOptString_ok_of_wellTyped {oj : Option Json}
    (h : optStringWellTyped oj = true) : ∃ t, decodeOptString oj = .ok t := by
  match oj with
  | none => exact ⟨none, rfl⟩
  | some .null => exact ⟨none, rfl⟩
  | some (.str s) => exact ⟨some s, rfl⟩
  | some (.bool b) => simp [optStringWellTyped] at h
  | some (.num n) => simp [optStringWellTyped] at h
  | some (.arr es) => simp [optStringWellTyped] at h
  | some (.obj fs) => simp [optStringWellTyped] at h

theorem decodeOptString_isOk :
    ∀ oj : Option Json, exceptOk (decodeOptString oj) = optStringWellTyped oj := by
  intro oj
  match oj with
  | none => rfl
  | some .null => rfl
  | some (.str s) => rfl
  | some (.bool b) => rfl
  | some (.num n) => rfl
  | some (.arr es) => rfl
  | some (.obj fs) => rfl

theorem decodeAddressResult_isOk :
    ∀ j : Json, exceptOk (decodeAddressResult j) = addressResultWellTyped j := by
  intro j
  cases j with
  | null => rfl
  | bool b => rfl
  | num n => rfl
  | str s => rfl
  | arr es => rfl
  | obj fields =>
      rcases hEA : Json.lookup fields "EmailAddress" with _ | (_ | b | n | s | es | fs) <;>
      rcases hAcc : Json.lookup fields "Accepted" with _ | (_ | b2 | n2 | s2 | es2 | fs2) <;>
      rcases hEC : Json.lookup fields "ErrorCode" with _ | v <;>
      simp [decodeAddressResult, addressResultWellTyped, hEA, hAcc, hEC,
        decodeString, decodeBool, exceptOk]

theorem decodeMessageResult_isOk :
    ∀ j : Json, exceptOk (decodeMessageResult j) = messageResultWellTyped j := by
  intro j
  cases j with
  | null => rfl
  | bool b => rfl
  | num n => rfl
  | str s => rfl
  | arr es => rfl
  | obj fields =>
      have hol := decodeOptList_ok_iff decodeAddressResult_isOk
        (Json.lookup fields "AddressResult")
      simp only [decodeMessageResult, messageResultWellTyped]
      rcases hIdx : Json.lookup fields "Index" with _ | idxJ
      · rfl
      · cases idxJ with
        | null => rfl
        | bool b => rfl
        | str s => rfl
        | arr es => rfl
        | obj fs => rfl
        | num n =>
            simp only [decodeU16]
            by_cases hc : 0 ≤ n ∧ n < 65536
            · rw [if_pos hc, decide_eq_true hc, Bool.true_and]
              rcases hEC : Json.lookup fields "ErrorCode" with _ | v
              · simp [exceptOk]
              · simp only [Option.isSome_some, Bool.true_and]
                cases hol' : decodeOptList decodeAddressResult
                    (Json.lookup fields "AddressResult") with
                | error e =>
                    rw [hol'] at hol
                    exact hol
                | ok ars =>
                    rw [hol'] at hol
                    exact hol
            · rw [if_neg hc, decide_eq_false hc, Bool.false_and]
              rfl

theorem decodeResponse_isOk :
    ∀ j : Json, exceptOk (decodeResponse j) = responseWellTyped j := by
  intro j
  cases j with
  | null => rfl
  | bool b => rfl
  | num n => rfl
  | str s => rfl
  | arr es => rfl
  | obj fields =>
      have hml := decodeOptList_ok_iff decodeMessageResult_isOk
        (Json.lookup fields "MessageResults")
      have hts := decodeOptString_isOk (Json.lookup fields "TransactionReceipt")
      simp only [decodeResponse, responseWellTyped]
      rcases hEC : Json.lookup fields "ErrorCode" with _ | v
      · rfl
      · simp only [Option.isSome_some, Bool.true_and]
        cases hts' : decodeOptString (Json.lookup fields "TransactionReceipt") with
        | error e =>
            rw [hts'] at hts
            simp only [exceptOk] at hts
            rw [← hts, Bool.false_and]
            rfl
        | ok tr =>
            rw [hts'] at hts
            simp only [exceptOk] at hts
            rw [← hts, Bool.true_and]
            cases hml' : decodeOptList decodeMessageResult
                (Json.lookup fields "MessageResults") with
            | error e =>
                rw [hml'] at hml
                exact hml
            | ok mrs =>
                rw [hml'] at hml
                exact hml

theorem exceptOk_false {x : Except ε α} (h : exceptOk x = false) : ∃ e, x = .error e := by
  cases x with
  | ok a => simp [exceptOk] at h
  | error e => exact ⟨e, rfl⟩

theorem decodeAddressResult_errorCode {fields : List (String × Json)} {ecJ : Json}
    {ar : AddressResult} (hEC : Json.lookup fields "ErrorCode" = some ecJ)
    (h : decodeAddressResult (.obj fields) = .ok ar) :
    ar.error_code = deserialize_addressresult ecJ := by
  simp only [decodeAddressResult, hEC] at h
  repeat' split at h
  all_goals first
    | (simp only [Except.ok.injEq] at h
       rw [← h])
    | exact absurd h (by simp)

theorem decodeMessageResult_errorCode {fields : List (String × Json)} {ecJ : Json}
    {mr : MessageResult} (hEC : Json.lookup fields "ErrorCode" = some ecJ)
    (h : decodeMessageResult (.obj fields) = .ok mr) :
    mr.error_code = deserialize_messageresult ecJ := by
  simp only [decodeMessageResult, hEC] at h
  repeat' split at h
  all_goals first
    | (simp only [Except.ok.injEq] at h
       rw [← h])
    | exact absurd h (by simp)

theorem decodeResponse_errorCode {fields : List (String × Json)} {ecJ : Json}
    {r : Response} (hEC : Json.lookup fields "ErrorCode" = some ecJ)
    (h : decodeResponse (.obj fields) = .ok r) :
    r.error_code = deserialize_postmessage ecJ := by
  simp only [decodeResponse, hEC] at h
  repeat' split at h
  all_goals first
    | (simp only [Except.ok.injEq] at h
       rw [← h])
    | exact absurd h (by simp)

theorem Json.lookup_append (xs ys : List (String × Json)) (k : String) :
    Json.lookup (xs ++ ys) k = (Json.lookup xs k <|> Json.lookup ys k) := by
  induction xs with
  | nil => rfl
  | cons hd tl ih =>
      obtain ⟨k', v⟩ := hd
      by_cases h : k' = k
      · simp [Json.lookup, h]
      · simp [Json.lookup, h, ih]

theorem Json.lookup_optField_ne {k k' : String} (h : ¬k' = k) (ov : Option Json) :
    Json.lookup (optField k' ov) k = none := by
  cases ov <;> simp [optField, Json.lookup, h]

theorem Json.lookup_optField_self (k : String) (v : Json) :
    Json.lookup (optField k (some v)) k = some v := by
  simp [optField, Json.lookup]

/-- Claim C1, counterexample: the string "plainly-not-an-email" contains no
at-sign, so it is not a syntactically valid email address under any standard
email-address grammar, yet `Email::new` succeeds on it and produces an
`Email` value holding it verbatim — construction does not validate. -/
theorem C1_counterexample :
    ('@' ∉ "plainly-not-an-email".data) ∧
    Email.new "plainly-not-an-email" none =
      { email_address := "plainly-not-an-email", friendly_name := none } := by
  exact ⟨by decide, rfl⟩

/-- Claim C1, amended: `Email::new` performs no validation at all: for every
address string — syntactically valid or not — and every optional display
name, construction succeeds and produces an `Email` holding exactly the given
address and name. -/
theorem C1_email_new_never_fails (a : String) (n : Option String) :
    (Email.new a n).email_address = a ∧ (Email.new a n).friendly_name = n :=
  ⟨rfl, rfl⟩

/-- Claim C7: serializing an `Email` yields exactly the object with key
`EmailAddress` when no display name is present, and exactly the object with
keys `EmailAddress` and `FriendlyName` when one is present. -/
theorem C7_email_wire_shape :
    (∀ a : String, serializeEmail { email_address := a, friendly_name := none } =
       .obj [("EmailAddress", .str a)]) ∧
    (∀ a n : String, serializeEmail { email_address := a, friendly_name := some n } =
       .obj [("EmailAddress", .str a), ("FriendlyName", .str n)]) :=
  ⟨fun _ => rfl, fun _ _ => rfl⟩

/-- Claim C8: `add_headers` leaves `custom_headers` holding exactly the
previous entries (an empty list when the field was absent, i.e. lazy
initialization) followed by one `CustomHeader` per entry of the input
mapping, in the mapping's iteration order — nothing is deduplicated or
removed. -/
theorem C8_add_headers_appends (m : Message) (headers : List (String × String)) :
    (m.add_headers headers).custom_headers =
      some (m.custom_headers.getD [] ++
        headers.map (fun p => { name := p.1, value := p.2 })) := by
  cases h : m.custom_headers <;>
    simp [Message.add_headers, h]

/-- Claim C10: `send` never modifies the `Request`: the receiver after the
call holds the same `server_id`, `api_key` and `messages` as before, and
re-sending that same instance issues exactly the same wire request (same
serialized payload) with the same result. -/
theorem C10_send_frame (r : Request)
    (t t' : HttpRequest → Except TransportError HttpResponse) :
    ((Request.send r t).1.server_id = r.server_id ∧
     (Request.send r t).1.api_key = r.api_key ∧
     (Request.send r t).1.messages = r.messages) ∧
    Request.send ((Request.send r t).1) t' = Request.send r t' :=
  ⟨⟨rfl, rfl, rfl⟩, rfl⟩

/-- Claim C3: for a `Message` in which only the required fields are set
(every optional field is absent), serialization emits exactly the four
required keys — no optional key appears at all, so in particular no optional
key is emitted with a null value. -/
theorem C3_optional_absent_keys_omitted (m : Message)
    (h1 : m.html_body = none) (h2 : m.api_template = none)
    (h3 : m.mailing_id = none) (h4 : m.message_id = none)
    (h5 : m.charset = none) (h6 : m.custom_headers = none)
    (h7 : m.cc = none) (h8 : m.bcc = none) (h9 : m.reply_to = none)
    (h10 : m.attachment = none) (h11 : m.merge_data = none) :
    Json.keys (serializeMessage m) = ["To", "From", "Subject", "TextBody"] := by
  simp [serializeMessage, Json.keys, optField,
    h1, h2, h3, h4, h5, h6, h7, h8, h9, h10, h11]

/-- Witness for C3 at `Message::new "a@example.com" None`, whose optional
fields are all absent. -/
theorem C3_witness :
    (Message.new "a@example.com" none).html_body = none ∧
    Json.keys (serializeMessage (Message.new "a@example.com" none)) =
      ["To", "From", "Subject", "TextBody"] :=
  ⟨rfl, C3_optional_absent_keys_omitted (Message.new "a@example.com" none)
    rfl rfl rfl rfl rfl rfl rfl rfl rfl rfl rfl⟩

/-- Claim C4: `Request::new` on an empty message list fails with
`MessageCountError`; on a non-empty list it succeeds, and the resulting
`Request` holds the given `server_id`, the given `api_key`, and the messages
unchanged and in their original order. -/
theorem C4_request_new (sid : Nat) (key : String) :
    (Request.new sid key [] = .error .MessageCountError) ∧
    (∀ msgs : List Message, msgs ≠ [] →
       Request.new sid key msgs =
         .ok { server_id := sid, api_key := key, messages := msgs }) := by
  refine ⟨rfl, ?_⟩
  intro msgs h
  simp [Request.new, h]

/-- Witness for C4 at a one-message list. -/
theorem C4_witness :
    (Request.new 12345 "k" [] = .error .MessageCountError) ∧
    ([Message.new "a@example.com" none] ≠ ([] : List Message)) ∧
    Request.new 12345 "k" [Message.new "a@example.com" none] =
      .ok { server_id := 12345, api_key := "k",
            messages := [Message.new "a@example.com" none] } :=
  ⟨(C4_request_new 12345 "k").1, by simp,
   (C4_request_new 12345 "k").2 [Message.new "a@example.com" none] (by simp)⟩

/-- Claim C5, counterexample: with a transport whose successful exchange
returns status 200 and the body "not json" (not even well-formed JSON, so it
could not decode into the Response model), `send` hands the caller that raw
transport response itself — no parsing of the body into the Response model
takes place, contradicting the claim that the decoded `Response` is what the
caller receives. -/
theorem C5_counterexample :
    (Request.send
       { server_id := 12345, api_key := "k",
         messages := [Message.new "a@example.com" none] }
       (fun _ => .ok { status := 200, body := "not json" })).2.2 =
      .ok { status := 200, body := "not json" } := rfl

/-- Claim C5, amended: `send` serializes the envelope to the wire JSON shape
with upper-camel-case keys `ServerId`, `ApiKey`, `Messages`, issues exactly
one HTTP POST with content type application/json to the fixed injection
endpoint, and on a successful HTTP exchange returns the transport's raw
response unchanged to the caller (it does not decode the body into the
Response model). -/
theorem C5_send_wire_contract (r : Request)
    (transport : HttpRequest → Except TransportError HttpResponse) :
    ((Request.send r transport).2.1 =
       [{ url := API_URL, content_type := "application/json",
          body := serializeRequest r }]) ∧
    Json.keys (serializeRequest r) = ["ServerId", "ApiKey", "Messages"] ∧
    (∀ resp, transport { url := API_URL, content_type := "application/json",
                         body := serializeRequest r } = .ok resp →
       (Request.send r transport).2.2 = .ok resp) := by
  refine ⟨rfl, rfl, ?_⟩
  intro resp h
  simp [Request.send, h]

/-- Witness for C5 at a concrete request and an always-succeeding
transport. -/
theorem C5_witness :
    ((Request.send
        { server_id := 12345, api_key := "k",
          messages := [Message.new "a@example.com" none] }
        (fun _ => .ok { status := 200, body := "ok-body" })).2.1 =
      [{ url := API_URL, content_type := "application/json",
         body := serializeRequest
           { server_id := 12345, api_key := "k",
             messages := [Message.new "a@example.com" none] } }]) ∧
    (Request.send
       { server_id := 12345, api_key := "k",
         messages := [Message.new "a@example.com" none] }
       (fun _ => .ok { status := 200, body := "ok-body" })).2.2 =
      .ok { status := 200, body := "ok-body" } :=
  ⟨(C5_send_wire_contract _ _).1,
   (C5_send_wire_contract _ _).2.2 { status := 200, body := "ok-body" } rfl⟩

/-- Claim C2: at each of the three levels, if the error-code field holds a
string matching no variant of the corresponding closed set, decoding succeeds
and that field becomes `UnknownErrorCode`.  The shape predicates
(`responseWellTyped`, `messageResultWellTyped`, `addressResultWellTyped`)
constrain only the other fields — they accept any value at an `ErrorCode`
key — so the unknown string is never the cause of a failure. -/
theorem C2_unknown_code_fallback :
    (∀ (fields : List (String × Json)) (s : String),
       responseWellTyped (.obj fields) = true →
       Json.lookup fields "ErrorCode" = some (.str s) →
       PostMessageErrorCode.fromString s = none →
       ∃ r, decodeResponseBody (.obj fields) = .ok r ∧
         r.error_code = .UnknownErrorCode) ∧
    (∀ (fields : List (String × Json)) (s : String),
       messageResultWellTyped (.obj fields) = true →
       Json.lookup fields "ErrorCode" = some (.str s) →
       MessageResultErrorCode.fromString s = none →
       ∃ mr, decodeMessageResult (.obj fields) = .ok mr ∧
         mr.error_code = .UnknownErrorCode) ∧
    (∀ (fields : List (String × Json)) (s : String),
       addressResultWellTyped (.obj fields) = true →
       Json.lookup fields "ErrorCode" = some (.str s) →
       AddressResultErrorCode.fromString s = none →
       ∃ ar, decodeAddressResult (.obj fields) = .ok ar ∧
         ar.error_code = .UnknownErrorCode) := by
  refine ⟨?_, ?_, ?_⟩
  · intro fields s hwt hEC hunk
    have hok : exceptOk (decodeResponse (.obj fields)) = true := by
      rw [decodeResponse_isOk]
      exact hwt
    obtain ⟨r, hr⟩ := exceptOk_true hok
    refine ⟨r, ?_, ?_⟩
    · simp [decodeResponseBody, hr]
    · rw [decodeResponse_errorCode hEC hr]
      simp [deserialize_postmessage, hunk]
  · intro fields s hwt hEC hunk
    have hok : exceptOk (decodeMessageResult (.obj fields)) = true := by
      rw [decodeMessageResult_isOk]
      exact hwt
    obtain ⟨mr, hmr⟩ := exceptOk_true hok
    refine ⟨mr, hmr, ?_⟩
    rw [decodeMessageResult_errorCode hEC hmr]
    simp [deserialize_messageresult, hunk]
  · intro fields s hwt hEC hunk
    have hok : exceptOk (decodeAddressResult (.obj fields)) = true := by
      rw [decodeAddressResult_isOk]
      exact hwt
    obtain ⟨ar, har⟩ := exceptOk_true hok
    refine ⟨ar, har, ?_⟩
    rw [decodeAddressResult_errorCode hEC har]
    simp [deserialize_addressresult, hunk]

/-- Witness for C2 on the unknown code "TotallyNewCode" at all three
levels. -/
theorem C2_witness :
    (∃ r, decodeResponseBody (.obj [("ErrorCode", .str "TotallyNewCode")]) =
       .ok r ∧ r.error_code = .UnknownErrorCode) ∧
    (∃ mr, decodeMessageResult
       (.obj [("Index", .num 0), ("ErrorCode", .str "TotallyNewCode")]) =
       .ok mr ∧ mr.error_code = .UnknownErrorCode) ∧
    (∃ ar, decodeAddressResult
       (.obj [("EmailAddress", .str "a@example.com"), ("Accepted", .bool false),
              ("ErrorCode", .str "TotallyNewCode")]) =
       .ok ar ∧ ar.error_code = .UnknownErrorCode) :=
  ⟨C2_unknown_code_fallback.1 [("ErrorCode", .str "TotallyNewCode")]
     "TotallyNewCode" rfl rfl rfl,
   C2_unknown_code_fallback.2.1 [("Index", .num 0), ("ErrorCode", .str "TotallyNewCode")]
     "TotallyNewCode" rfl rfl rfl,
   C2_unknown_code_fallback.2.2 [("EmailAddress", .str "a@example.com"),
       ("Accepted", .bool false), ("ErrorCode", .str "TotallyNewCode")]
     "TotallyNewCode" rfl rfl rfl⟩

/-- Claim C6, counterexample: a well-formed response object whose required
`ErrorCode` field is present (and whose only other field, the optional
`TransactionReceipt`, is present as the number 5) fails to decode — the
failure comes from a present field of the wrong type, a case outside
"malformed JSON or missing required field", so decode failure is not
characterized by those two conditions alone. -/
theorem C6_counterexample :
    (Json.lookup [("ErrorCode", Json.str "Success"),
       ("TransactionReceipt", Json.num 5)] "ErrorCode").isSome = true ∧
    decodeResponseBody (.obj [("ErrorCode", Json.str "Success"),
        ("TransactionReceipt", Json.num 5)]) =
      .error (.MessageParsingError "invalid type: expected a string or null") :=
  ⟨rfl, rfl⟩

/-- Claim C6, amended: decoding a response fails — with a
`MessageParsingError` carrying the underlying decode diagnostic — exactly
when the tree is not shaped as a well-typed response: a required field is
missing (`ErrorCode` at each level, `EmailAddress`/`Accepted` on
AddressResult, `Index`/`ErrorCode` on MessageResult), or a present
non-error-code field holds a value of the wrong type (with malformed JSON
rejected upstream by the parser); it never fails because of unrecognized
error-code text, since the shape predicate accepts any value at an
`ErrorCode` key. -/
theorem C6_decode_failure_characterization :
    (∀ j : Json, responseWellTyped j = true →
       ∃ r, decodeResponseBody j = .ok r) ∧
    (∀ j : Json, responseWellTyped j = false →
       ∃ d, decodeResponseBody j = .error (.MessageParsingError d)) := by
  constructor
  · intro j hwt
    have hok : exceptOk (decodeResponse j) = true := by
      rw [decodeResponse_isOk]
      exact hwt
    obtain ⟨r, hr⟩ := exceptOk_true hok
    exact ⟨r, by simp [decodeResponseBody, hr]⟩
  · intro j hwt
    have hko : exceptOk (decodeResponse j) = false := by
      rw [decodeResponse_isOk]
      exact hwt
    obtain ⟨e, he⟩ := exceptOk_false hko
    exact ⟨e, by simp [decodeResponseBody, he, socketLabsErrorOfSerde]⟩

/-- Witness for C6: a minimal well-typed response decodes, and the spec's own
example of a top-level object with no `ErrorCode` key fails with
`MessageParsingError`. -/
theorem C6_witness :
    (responseWellTyped (.obj [("ErrorCode", Json.str "Success")]) = true) ∧
    (∃ r, decodeResponseBody (.obj [("ErrorCode", Json.str "Success")]) = .ok r) ∧
    (responseWellTyped (.obj [("TransactionReceipt", Json.str "x")]) = false) ∧
    (∃ d, decodeResponseBody (.obj [("TransactionReceipt", Json.str "x")]) =
       .error (.MessageParsingError d)) :=
  ⟨rfl,
   C6_decode_failure_characterization.1 (.obj [("ErrorCode", Json.str "Success")]) rfl,
   rfl,
   C6_decode_failure_characterization.2 (.obj [("TransactionReceipt", Json.str "x")]) rfl⟩

/-- Claim C9: calling `add_headers` with an empty mapping on a `Message`
whose `custom_headers` is absent leaves the field present holding an empty
list, so serialization emits the `CustomHeaders` key bound to an empty
array rather than omitting it. -/
theorem C9_empty_add_headers_emits_key (m : Message)
    (h : m.custom_headers = none) :
    (m.add_headers []).custom_headers = some [] ∧
    Json.getKey (serializeMessage (m.add_headers [])) "CustomHeaders" =
      some (.arr []) := by
  have hch : (m.add_headers []).custom_headers = some [] := by
    simp [Message.add_headers, h]
  refine ⟨hch, ?_⟩
  simp [Json.getKey, serializeMessage, hch, Json.lookup_append,
    Json.lookup_optField_ne, Json.lookup_optField_self, Json.lookup]

/-- Witness for C9 at `Message::new "a@example.com" None`. -/
theorem C9_witness :
    (Message.new "a@example.com" none).custom_headers = none ∧
    ((Message.new "a@example.com" none).add_headers []).custom_headers = some [] ∧
    Json.getKey (serializeMessage ((Message.new "a@example.com" none).add_headers []))
      "CustomHeaders" = some (.arr []) :=
  ⟨rfl,
   (C9_empty_add_headers_emits_key (Message.new "a@example.com" none) rfl).1,
   (C9_empty_add_headers_emits_key (Message.new "a@example.com" none) rfl).2⟩
